import Mathlib

/-!
Shallow embedding of the Twinity Cloud Functions reward endpoints
(`src/firebase.js`): the `applyAdReward` and `awardGamePoints` Express
handlers over a Firestore-backed per-user balance record.

Modelling conventions:
* The store is modelled per user (both handlers only ever touch the
  document of the verified uid and its `activities` subcollection).
* JSON numbers arriving in the request body are modelled as rationals
  (`ℚ`); `Number.isInteger` is "denominator = 1".  `NaN` has no rational
  counterpart, so `isNaN` on a supplied number is `false`, which agrees
  with JavaScript for every finite number.
* Request fields that may be absent (`undefined`) are `Option`s.
  JavaScript truthiness of a string is "present and nonempty"; of a
  number it is "present and nonzero".
* `res.status(...).json(...)` calls are recorded in order as a list of
  response attempts; the source handler can attempt more than one send
  on a single request, and the model keeps every attempt.
* `db.runTransaction` is modelled as the atomic application of the
  callback's write set; the model also counts how many transactions a
  run opens.
* `admin.firestore.FieldValue.increment` on an absent document/field
  behaves as incrementing from 0, which is how the model creates
  records.  Server timestamps are an abstract `Nat` supplied to the run.
* The JavaScript stringification of a non-integer number (never needed
  by any claim) is abstracted by `Rat`'s `toString`; integers are
  rendered as their usual decimal string, matching JS.
-/

/-- A UTC instant as the handler observes it through
`getUTCFullYear` / `getUTCMonth` (0-based) / `getUTCDate`. -/
structure Date where
  utcFullYear : Nat
  utcMonth : Nat
  utcDate : Nat
deriving DecidableEq

/-- The day key built in `applyAdReward`:
`${now.getUTCFullYear()}-${now.getUTCMonth()+1}-${now.getUTCDate()}`. -/
def dayKey (now : Date) : String :=
  toString now.utcFullYear ++ "-" ++ toString (now.utcMonth + 1) ++ "-"
    ++ toString now.utcDate

/-- The user balance document (`users/{uid}`): the numeric `points`
field, the `lastAdShown` day key, and all unrelated fields (kept
abstract as key/value pairs, only read and written by merging). -/
structure UserDoc where
  points : Int
  lastAdShown : Option String
  others : List (String × String)
deriving DecidableEq

/-- An entry of the `activities` subcollection: free text, the
server-assigned timestamp, and the optional `totalScore` context. -/
structure Activity where
  text : String
  time : Nat
  totalScore : Option ℚ
deriving DecidableEq

/-- The per-user slice of the Firestore state: the balance document
(absent documents are `none`) and the append-only activity log. -/
structure Store where
  user : Option UserDoc
  activities : List Activity
deriving DecidableEq

/-- One attempted `res.status(s).json({...})` send. -/
structure Resp where
  status : Nat
  ok : Bool
  error : Option String
  added : Option Int
  points : Option Int
deriving DecidableEq

/-- Result of running a handler: final store, the ordered list of
response attempts, and how many Firestore transactions were opened. -/
structure RunResult where
  store : Store
  responses : List Resp
  txCount : Nat
deriving DecidableEq

/-- Request body of `POST /applyAdReward`: the `userId` field (a missing
body destructures every field to `undefined`). -/
structure AdReq where
  userId : Option String
deriving DecidableEq

/-- Request body of `POST /awardGamePoints`: the `userId`, `points`,
`level` and `totalScore` fields. -/
structure GameReq where
  userId : Option String
  points : Option ℚ
  level : Option ℚ
  totalScore : Option ℚ
deriving DecidableEq

/-- Model of `Number.isInteger` on a (finite) JSON number. -/
def jsIsInteger (q : ℚ) : Bool := q.den == 1

/-- JavaScript truthiness of a possibly-absent string
(`!userId` is the negation of this). -/
def strTruthy : Option String → Bool
  | none => false
  | some s => s ≠ ""

/-- Template-literal rendering of a number: integers print as decimal
strings exactly as in JS; non-integers are abstracted by `Rat.toString`
(no claim depends on their rendering). -/
def jsNumToString (q : ℚ) : String :=
  if q.den = 1 then toString q.num else toString q

/-- The `fresh.data().points || 0` coercion after the post-transaction
re-fetch: an absent document reads as 0 (a stored 0 also reads as 0,
so the `|| 0` needs no separate case). -/
def readPoints (st : Store) : Int :=
  match st.user with
  | some u => u.points
  | none => 0

/-- The stored `lastAdShown` field, `none` when the document (or the
field) is absent. -/
def readLastAdShown (st : Store) : Option String :=
  match st.user with
  | some u => u.lastAdShown
  | none => none

/-- The unrelated fields of the balance document (empty when absent). -/
def readOthers (st : Store) : List (String × String) :=
  match st.user with
  | some u => u.others
  | none => []

/-- Response sent by the `userId` ownership check of both handlers. -/
def userIdMismatchResp : Resp :=
  { status := 400, ok := false, error := some "userId mismatch",
    added := none, points := none }

/-- Response sent by `verifyIdTokenFromReq` when verification fails
(the two 401 bodies of the source differ only in wording; the external
verifier is opaque, so the model keeps a single 401). -/
def unauthorizedResp : Resp :=
  { status := 401, ok := false, error := some "unauthorized",
    added := none, points := none }

/-- The in-transaction "Already claimed today" send of `applyAdReward`. -/
def alreadyClaimedResp : Resp :=
  { status := 200, ok := false, error := some "Already claimed today",
    added := none, points := none }

/--
Embedding of `app.post("/applyAdReward", ...)` from `src/firebase.js`:
verify the token, check `userId` ownership, then inside one transaction
read the snapshot, send "Already claimed today" if `lastAdShown`
already equals today's day key, otherwise merge
`{points: increment(100), lastAdShown: dayKey}` and append an activity;
after the transaction (on every path that reached it) re-fetch the
document and send `{ok:true, added:100, points}`.

`auth` is the result of the opaque token verifier (`none` = failed),
`serverTime` the server-assigned timestamp of this run.
-/
def applyAdReward (now : Date) (serverTime : Nat) (auth : Option String)
    (req : AdReq) (st : Store) : RunResult :=
  match auth with
  | none => { store := st, responses := [unauthorizedResp], txCount := 0 }
  | some uid =>
    if ¬ strTruthy req.userId ∨ req.userId ≠ some uid then
      { store := st, responses := [userIdMismatchResp], txCount := 0 }
    else
      let dk := dayKey now
      if readLastAdShown st = some dk then
        -- the transaction callback sends the 200/ok:false response and
        -- returns; the handler still falls through to the re-fetch and
        -- attempts a second send on the same request
        { store := st,
          responses := [alreadyClaimedResp,
            { status := 200, ok := true, error := none,
              added := some 100, points := some (readPoints st) }],
          txCount := 1 }
      else
        let newUser : UserDoc :=
          match st.user with
          | some u => { u with points := u.points + 100, lastAdShown := some dk }
          | none => { points := 100, lastAdShown := some dk, others := [] }
        let act : Activity :=
          { text := "Watched daily ad +100 pts (server)",
            time := serverTime, totalScore := none }
        let st2 : Store :=
          { user := some newUser, activities := st.activities ++ [act] }
        { store := st2,
          responses :=
            [{ status := 200, ok := true, error := none,
               added := some 100, points := some (readPoints st2) }],
          txCount := 1 }

/-- The level guard of `awardGamePoints`:
`level && (isNaN(level) || level < 0 || level > MAX_LEVEL_ALLOWED)`. -/
def levelRejected (level : Option ℚ) : Bool :=
  match level with
  | none => false
  | some l => l ≠ 0 ∧ (l < 0 ∨ l > 500)

/-- The `totalScore || null` coercion stored on the activity entry. -/
def totalScoreOrNull : Option ℚ → Option ℚ
  | none => none
  | some t => if t = 0 then none else some t

/-- Activity text of `awardGamePoints`, the template literal
`Game: +${points} pts (level ${level || "?"})`. -/
def gameActivityText (pts : Int) (level : Option ℚ) : String :=
  "Game: +" ++ toString pts ++ " pts (level " ++
    (match level with
     | none => "?"
     | some l => if l = 0 then "?" else jsNumToString l) ++ ")"

/--
Embedding of `app.post("/awardGamePoints", ...)` from `src/firebase.js`:
verify the token, check `userId` ownership, reject non-integer or
non-positive `points` ("invalid points"), `points > 1000`
("points_too_large") and out-of-range truthy `level` ("invalid level"),
all before any transaction; then in one transaction increment `points`
(creating the document by merge when absent, `tx.update` otherwise) and
append an activity entry; finally re-fetch and send
`{ok:true, added:points, points}`.
-/
def awardGamePoints (serverTime : Nat) (auth : Option String)
    (req : GameReq) (st : Store) : RunResult :=
  match auth with
  | none => { store := st, responses := [unauthorizedResp], txCount := 0 }
  | some uid =>
    if ¬ strTruthy req.userId ∨ req.userId ≠ some uid then
      { store := st, responses := [userIdMismatchResp], txCount := 0 }
    else
      match req.points with
      | none =>
        { store := st,
          responses :=
            [{ status := 400, ok := false,
               error := some "invalid points", added := none, points := none }],
          txCount := 0 }
      | some p =>
        if ¬ jsIsInteger p ∨ p ≤ 0 then
          { store := st,
            responses :=
              [{ status := 400, ok := false,
                 error := some "invalid points", added := none, points := none }],
            txCount := 0 }
        else if p > 1000 then
          { store := st,
            responses :=
              [{ status := 400, ok := false,
                 error := some "points_too_large", added := none, points := none }],
            txCount := 0 }
        else if levelRejected req.level then
          { store := st,
            responses :=
              [{ status := 400, ok := false,
                 error := some "invalid level", added := none, points := none }],
            txCount := 0 }
        else
          let pts : Int := p.num
          let newUser : UserDoc :=
            match st.user with
            | some u => { u with points := u.points + pts }
            | none => { points := pts, lastAdShown := none, others := [] }
          let act : Activity :=
            { text := gameActivityText pts req.level, time := serverTime,
              totalScore := totalScoreOrNull req.totalScore }
          let st2 : Store :=
            { user := some newUser, activities := st.activities ++ [act] }
          { store := st2,
            responses :=
              [{ status := 200, ok := true, error := none,
                 added := some pts, points := some (readPoints st2) }],
            txCount := 1 }

/-- A request handled by the system: either endpoint, with its clock /
server-timestamp inputs, verifier outcome and request body. -/
inductive Op
  | ad (now : Date) (serverTime : Nat) (auth : Option String) (req : AdReq)
  | game (serverTime : Nat) (auth : Option String) (req : GameReq)

/-- Run one request against the store. -/
def runOp (st : Store) : Op → RunResult
  | Op.ad now serverTime auth req => applyAdReward now serverTime auth req st
  | Op.game serverTime auth req => awardGamePoints serverTime auth req st

/-- "`needle` occurs in `hay`": the needle's characters form a
contiguous infix of the hay's characters; used to state "the audit
record contains ...". -/
def strContains (hay needle : String) : Prop :=
  needle.data <:+: hay.data

instance (hay needle : String) : Decidable (strContains hay needle) := by
  unfold strContains; infer_instance

/-- The empty per-user state: no balance document, no activities. -/
def emptyStore : Store := { user := none, activities := [] }

/-- A concrete UTC date (January 15, 2025; `getUTCMonth` is 0-based). -/
def jan15 : Date := { utcFullYear := 2025, utcMonth := 0, utcDate := 15 }

/-- A store whose user already claimed the ad reward on `jan15`. -/
def adDayState : Store :=
  { user := some { points := 40, lastAdShown := some "2025-1-15", others := [] },
    activities := [] }

/-- The spec scenario request: `{points: 50, level: 3}` by user "u1". -/
def gameReq50 : GameReq :=
  { userId := some "u1", points := some 50, level := some 3, totalScore := none }

/-- The server-assigned timestamp input of a request. -/
def opServerTime : Op → Nat
  | Op.ad _ t _ _ => t
  | Op.game t _ _ => t

/-- A string literally built as `a ++ needle ++ b` contains `needle`. -/
theorem strContains_of_decomp (a needle b : String) :
    strContains (a ++ needle ++ b) needle :=
  ⟨a.data, b.data, by simp [String.data_append]⟩

/-- The ownership guard `!userId || userId !== uid` does not fire when
the body's `userId` is present, nonempty and equal to the verified uid. -/
theorem ownership_guard_passes (uid : String) (userId : Option String)
    (huid : userId = some uid) (hne : uid ≠ "") :
    ¬ (¬ strTruthy userId = true ∨ userId ≠ some uid) := by
  subst huid
  simp [strTruthy, hne]

/-- C1 (amended): a second `applyAdReward` call within the same UTC day
leaves the store untouched (no balance change, no audit record) and
sends the "already claimed" outcome as its FIRST response — but not as
its only one: the handler falls through and attempts a second response,
HTTP 200 with `ok:true`, `added:100` and the current total. -/
theorem applyAdReward_already_claimed (now : Date) (t : Nat) (uid : String)
    (req : AdReq) (st : Store)
    (huid : req.userId = some uid) (hne : uid ≠ "")
    (hday : readLastAdShown st = some (dayKey now)) :
    (applyAdReward now t (some uid) req st).store = st ∧
    (applyAdReward now t (some uid) req st).responses =
      [alreadyClaimedResp,
       { status := 200, ok := true, error := none, added := some 100,
         points := some (readPoints st) }] := by
  unfold applyAdReward
  simp only [if_neg (ownership_guard_passes uid req.userId huid hne), if_pos hday]
  exact ⟨trivial, trivial⟩

/-- C1 (witness): the amended statement at a concrete second call within
the same UTC day. -/
theorem applyAdReward_already_claimed_witness :
    (applyAdReward jan15 7 (some "u1") { userId := some "u1" } adDayState).store
        = adDayState ∧
    (applyAdReward jan15 7 (some "u1") { userId := some "u1" } adDayState).responses =
      [alreadyClaimedResp,
       { status := 200, ok := true, error := none, added := some 100,
         points := some (readPoints adDayState) }] :=
  applyAdReward_already_claimed jan15 7 "u1" { userId := some "u1" } adDayState rfl
    (by decide) (by decide)

/-- C1 (counterexample): on a concrete second call within the same UTC
day, the "already claimed" outcome is NOT the handler's only response
attempt, contradicting the claim as stated. -/
theorem applyAdReward_already_claimed_not_sole_response :
    ¬ (applyAdReward jan15 7 (some "u1") { userId := some "u1" } adDayState).responses
        = [alreadyClaimedResp] := by decide

/-- C7: a valid `applyAdReward` call whose stored day key differs from
today's UTC day key (or with no record) adds exactly 100 points, stores
today's day key, appends exactly one audit record (with the
server-assigned timestamp), and responds 200 `ok:true, added:100` with
the new total. -/
theorem applyAdReward_first_of_day (now : Date) (t : Nat) (uid : String)
    (req : AdReq) (st : Store)
    (huid : req.userId = some uid) (hne : uid ≠ "")
    (hday : readLastAdShown st ≠ some (dayKey now)) :
    readPoints (applyAdReward now t (some uid) req st).store = readPoints st + 100 ∧
    readLastAdShown (applyAdReward now t (some uid) req st).store
        = some (dayKey now) ∧
    (applyAdReward now t (some uid) req st).store.activities =
      st.activities ++
        [{ text := "Watched daily ad +100 pts (server)", time := t,
           totalScore := none }] ∧
    (applyAdReward now t (some uid) req st).responses =
      [{ status := 200, ok := true, error := none, added := some 100,
         points := some (readPoints st + 100) }] := by
  rcases st with ⟨u, acts⟩
  unfold applyAdReward
  simp only [if_neg (ownership_guard_passes uid req.userId huid hne), if_neg hday]
  rcases u with _ | u
  · simp [readPoints, readLastAdShown]
  · simp [readPoints, readLastAdShown]

/-- C7 (witness): the statement at a concrete first call of the day,
starting from an empty store. -/
theorem applyAdReward_first_of_day_witness :
    readPoints (applyAdReward jan15 7 (some "u1")
        { userId := some "u1" } emptyStore).store = readPoints emptyStore + 100 ∧
    readLastAdShown (applyAdReward jan15 7 (some "u1")
        { userId := some "u1" } emptyStore).store = some (dayKey jan15) ∧
    (applyAdReward jan15 7 (some "u1")
        { userId := some "u1" } emptyStore).store.activities =
      emptyStore.activities ++
        [{ text := "Watched daily ad +100 pts (server)", time := 7,
           totalScore := none }] ∧
    (applyAdReward jan15 7 (some "u1") { userId := some "u1" } emptyStore).responses =
      [{ status := 200, ok := true, error := none, added := some 100,
         points := some (readPoints emptyStore + 100) }] :=
  applyAdReward_first_of_day jan15 7 "u1" { userId := some "u1" } emptyStore rfl
    (by decide) (by decide)

/-- C10: on the "already claimed" path the handler runs its transaction,
sends the 200 `ok:false` response from inside the transaction callback,
and then still falls through to the post-transaction re-fetch, attempting
a second response: 200 with `ok:true`, `added:100` and the current
stored total. -/
theorem applyAdReward_double_send (now : Date) (t : Nat) (uid : String)
    (req : AdReq) (st : Store)
    (huid : req.userId = some uid) (hne : uid ≠ "")
    (hday : readLastAdShown st = some (dayKey now)) :
    (applyAdReward now t (some uid) req st).txCount = 1 ∧
    ∃ r : Resp,
      (applyAdReward now t (some uid) req st).responses = [alreadyClaimedResp, r] ∧
      r.status = 200 ∧ r.ok = true ∧ r.added = some 100 ∧
      r.points = some (readPoints st) := by
  unfold applyAdReward
  simp only [if_neg (ownership_guard_passes uid req.userId huid hne), if_pos hday]
  exact ⟨trivial, ⟨_, rfl, rfl, rfl, rfl, rfl⟩⟩

/-- C10 (witness): the double-send statement at a concrete second call
within the same UTC day. -/
theorem applyAdReward_double_send_witness :
    (applyAdReward jan15 9 (some "u2") { userId := some "u2" }
        { user := some { points := 0, lastAdShown := some "2025-1-15", others := [] },
          activities := [] }).txCount = 1 ∧
    ∃ r : Resp,
      (applyAdReward jan15 9 (some "u2") { userId := some "u2" }
        { user := some { points := 0, lastAdShown := some "2025-1-15", others := [] },
          activities := [] }).responses = [alreadyClaimedResp, r] ∧
      r.status = 200 ∧ r.ok = true ∧ r.added = some 100 ∧
      r.points = some (readPoints
        { user := some { points := 0, lastAdShown := some "2025-1-15", others := [] },
          activities := [] }) :=
  applyAdReward_double_send jan15 9 "u2" { userId := some "u2" }
    { user := some { points := 0, lastAdShown := some "2025-1-15", others := [] },
      activities := [] } rfl (by decide) (by decide)

/-- C5: for both handlers, a verified subject that differs from the
request body's `userId` (including a missing `userId`) gets a 400
"userId mismatch" and causes no mutation of the balance record or the
audit log (no transaction is even opened). -/
theorem userId_mismatch_rejected (now : Date) (t1 t2 : Nat) (uid : String)
    (areq : AdReq) (greq : GameReq) (st1 st2 : Store)
    (ha : areq.userId ≠ some uid) (hg : greq.userId ≠ some uid) :
    (applyAdReward now t1 (some uid) areq st1).store = st1 ∧
    (applyAdReward now t1 (some uid) areq st1).txCount = 0 ∧
    (applyAdReward now t1 (some uid) areq st1).responses = [userIdMismatchResp] ∧
    (awardGamePoints t2 (some uid) greq st2).store = st2 ∧
    (awardGamePoints t2 (some uid) greq st2).txCount = 0 ∧
    (awardGamePoints t2 (some uid) greq st2).responses = [userIdMismatchResp] := by
  have hga : ¬ strTruthy areq.userId = true ∨ areq.userId ≠ some uid := Or.inr ha
  have hgg : ¬ strTruthy greq.userId = true ∨ greq.userId ≠ some uid := Or.inr hg
  unfold applyAdReward awardGamePoints
  simp only [if_pos hga, if_pos hgg]
  exact ⟨trivial, trivial, trivial, trivial, trivial, trivial⟩

/-- C5 (witness): the statement at a concrete mismatch (missing
`userId` on the ad call, a different user's id on the game call). -/
theorem userId_mismatch_rejected_witness :
    (applyAdReward jan15 3 (some "u1") { userId := none } emptyStore).store
        = emptyStore ∧
    (applyAdReward jan15 3 (some "u1") { userId := none } emptyStore).txCount = 0 ∧
    (applyAdReward jan15 3 (some "u1") { userId := none } emptyStore).responses
        = [userIdMismatchResp] ∧
    (awardGamePoints 4 (some "u1")
        { userId := some "u2", points := some 5, level := none, totalScore := none }
        adDayState).store = adDayState ∧
    (awardGamePoints 4 (some "u1")
        { userId := some "u2", points := some 5, level := none, totalScore := none }
        adDayState).txCount = 0 ∧
    (awardGamePoints 4 (some "u1")
        { userId := some "u2", points := some 5, level := none, totalScore := none }
        adDayState).responses = [userIdMismatchResp] :=
  userId_mismatch_rejected jan15 3 4 "u1" { userId := none }
    { userId := some "u2", points := some 5, level := none, totalScore := none }
    emptyStore adDayState (by decide) (by decide)

/-- C3: an `awardGamePoints` call (verified, owning user) whose `points`
is missing, not an integer, not positive, or above 1000 mutates nothing,
opens no transaction, and gets a 400 with a specific reason code
("invalid points" or "points_too_large"). -/
theorem awardGamePoints_invalid_points (t : Nat) (uid : String)
    (req : GameReq) (st : Store)
    (huid : req.userId = some uid) (hne : uid ≠ "")
    (hbad : req.points = none ∨
      ∃ p : ℚ, req.points = some p ∧ (¬ jsIsInteger p = true ∨ p ≤ 0 ∨ 1000 < p)) :
    (awardGamePoints t (some uid) req st).store = st ∧
    (awardGamePoints t (some uid) req st).txCount = 0 ∧
    ∃ e : String, (e = "invalid points" ∨ e = "points_too_large") ∧
      (awardGamePoints t (some uid) req st).responses =
        [{ status := 400, ok := false, error := some e,
           added := none, points := none }] := by
  unfold awardGamePoints
  simp only [if_neg (ownership_guard_passes uid req.userId huid hne)]
  rcases hbad with hnone | ⟨p, hp, hbad⟩
  · simp only [hnone]
    exact ⟨trivial, trivial, "invalid points", Or.inl rfl, by simp⟩
  · simp only [hp]
    by_cases h1 : ¬ jsIsInteger p = true ∨ p ≤ 0
    · rw [if_pos h1]
      exact ⟨rfl, rfl, "invalid points", Or.inl rfl, rfl⟩
    · have h2 : 1000 < p := by
        rcases hbad with h | h | h
        · exact absurd (Or.inl h) h1
        · exact absurd (Or.inr h) h1
        · exact h
      rw [if_neg h1, if_pos h2]
      exact ⟨rfl, rfl, "points_too_large", Or.inr rfl, rfl⟩

/-- C3 (witness): the statement at a concrete non-integer `points`
value (5/2). -/
theorem awardGamePoints_invalid_points_witness :
    (awardGamePoints 7 (some "u1")
        { userId := some "u1", points := some (mkRat 5 2), level := none,
          totalScore := none } emptyStore).store = emptyStore ∧
    (awardGamePoints 7 (some "u1")
        { userId := some "u1", points := some (mkRat 5 2), level := none,
          totalScore := none } emptyStore).txCount = 0 ∧
    ∃ e : String, (e = "invalid points" ∨ e = "points_too_large") ∧
      (awardGamePoints 7 (some "u1")
          { userId := some "u1", points := some (mkRat 5 2), level := none,
            totalScore := none } emptyStore).responses =
        [{ status := 400, ok := false, error := some e,
           added := none, points := none }] :=
  awardGamePoints_invalid_points 7 "u1"
    { userId := some "u1", points := some (mkRat 5 2), level := none,
      totalScore := none } emptyStore rfl (by decide)
    (Or.inr ⟨mkRat 5 2, rfl, Or.inl (by decide)⟩)

/-- The anti-tamper points guard passes for a positive integer. -/
theorem points_guard_passes (p : ℚ) (hint : jsIsInteger p = true)
    (hp1 : 0 < p) : ¬ (¬ jsIsInteger p = true ∨ p ≤ 0) := by
  push_neg
  exact ⟨hint, hp1⟩

/-- The level guard `level && (isNaN(level) || level < 0 || level > 500)`
does not fire for an absent level or a level in `[0, 500]`. -/
theorem level_guard_passes (level : Option ℚ)
    (h : level = none ∨ ∃ l : ℚ, level = some l ∧ 0 ≤ l ∧ l ≤ 500) :
    ¬ levelRejected level = true := by
  rcases h with h | ⟨l, hl, h0, h5⟩ <;> subst_vars
  · simp [levelRejected]
  · simp only [levelRejected, decide_eq_true_eq]
    rintro ⟨hne, hlt | hgt⟩ <;> linarith

/-- Reduction of `awardGamePoints` along the fully validated path:
verified owner, integer `points` in `(0, 1000]`, level guard passing. -/
theorem awardGamePoints_success (t : Nat) (uid : String) (req : GameReq)
    (st : Store) (p : ℚ)
    (huid : req.userId = some uid) (hne : uid ≠ "")
    (hp : req.points = some p) (hint : jsIsInteger p = true)
    (hp1 : 0 < p) (hp2 : p ≤ 1000)
    (hlev : ¬ levelRejected req.level = true) :
    readPoints (awardGamePoints t (some uid) req st).store
        = readPoints st + p.num ∧
    readLastAdShown (awardGamePoints t (some uid) req st).store
        = readLastAdShown st ∧
    readOthers (awardGamePoints t (some uid) req st).store = readOthers st ∧
    (awardGamePoints t (some uid) req st).store.activities =
      st.activities ++
        [{ text := gameActivityText p.num req.level, time := t,
           totalScore := totalScoreOrNull req.totalScore }] ∧
    (awardGamePoints t (some uid) req st).responses =
      [{ status := 200, ok := true, error := none, added := some p.num,
         points := some (readPoints st + p.num) }] ∧
    (awardGamePoints t (some uid) req st).txCount = 1 := by
  rcases st with ⟨u, acts⟩
  unfold awardGamePoints
  simp only [hp, if_neg (ownership_guard_passes uid req.userId huid hne),
    if_neg (points_guard_passes p hint hp1), if_neg (not_lt.mpr hp2),
    if_neg hlev]
  rcases u with _ | u
  · simp [readPoints, readLastAdShown, readOthers]
  · simp [readPoints, readLastAdShown, readOthers]

/-- For a positive integer level `l`, the game activity text contains
the substring `"level " ++ l`. -/
theorem gameActivityText_contains_level (pts : Int) (l : ℚ)
    (hlden : l.den = 1) (hl1 : 1 ≤ l) :
    strContains (gameActivityText pts (some l)) ("level " ++ toString l.num) := by
  have hlne : ¬ l = 0 := by intro h; rw [h] at hl1; norm_num at hl1
  have htext : gameActivityText pts (some l)
      = ("Game: +" ++ toString pts ++ " pts (")
          ++ ("level " ++ toString l.num) ++ ")" := by
    unfold gameActivityText jsNumToString
    simp only [if_neg hlne, if_pos hlden]
    have hsplit : (" pts (level " : String) = " pts (" ++ "level " := rfl
    rw [hsplit]
    apply String.ext
    simp [String.data_append, List.append_assoc]
  rw [htext]
  exact strContains_of_decomp _ _ _

/-- For an absent or zero level, the game activity text contains
`"level ?"` (the `level || "?"` coercion). -/
theorem gameActivityText_contains_question (pts : Int) (level : Option ℚ)
    (h : level = none ∨ level = some 0) :
    strContains (gameActivityText pts level) "level ?" := by
  have htext : gameActivityText pts level
      = ("Game: +" ++ toString pts ++ " pts (") ++ "level ?" ++ ")" := by
    rcases h with h | h <;> subst h <;>
      · apply String.ext
        simp [gameActivityText, String.data_append, List.append_assoc]
  rw [htext]
  exact strContains_of_decomp _ _ _

/-- C2 (amended): a verified `awardGamePoints` call with integer
`points` in `[1,1000]` and `level` absent or an integer in `[0,500]`
increases the total by exactly `points` (from 0 when no record exists)
and appends exactly one audit record; the record's text contains the
level when the level is a positive integer, while a zero or absent
level is recorded as "level ?" (the `level || "?"` coercion). -/
theorem awardGamePoints_valid_award (t : Nat) (uid : String)
    (req : GameReq) (st : Store) (p : ℚ)
    (huid : req.userId = some uid) (hne : uid ≠ "")
    (hp : req.points = some p) (hint : jsIsInteger p = true)
    (hp1 : 1 ≤ p) (hp2 : p ≤ 1000)
    (hlev : req.level = none ∨
      ∃ l : ℚ, req.level = some l ∧ jsIsInteger l = true ∧ 0 ≤ l ∧ l ≤ 500) :
    readPoints (awardGamePoints t (some uid) req st).store
        = readPoints st + p.num ∧
    (awardGamePoints t (some uid) req st).store.activities =
      st.activities ++
        [{ text := gameActivityText p.num req.level, time := t,
           totalScore := totalScoreOrNull req.totalScore }] ∧
    (∀ l : ℚ, req.level = some l → 1 ≤ l →
        strContains (gameActivityText p.num req.level)
          ("level " ++ toString l.num)) ∧
    ((req.level = none ∨ req.level = some 0) →
        strContains (gameActivityText p.num req.level) "level ?") := by
  have hlev' : ¬ levelRejected req.level = true :=
    level_guard_passes req.level (by
      rcases hlev with h | ⟨l, hl, _, h0, h5⟩
      · exact Or.inl h
      · exact Or.inr ⟨l, hl, h0, h5⟩)
  obtain ⟨e1, e2, e3, e4, e5, e6⟩ :=
    awardGamePoints_success t uid req st p huid hne hp hint
      (by linarith) hp2 hlev'
  refine ⟨e1, e4, ?_, ?_⟩
  · intro l hl hl1
    have hlden : l.den = 1 := by
      rcases hlev with h | ⟨l', hl', hint', h0, h5⟩
      · rw [h] at hl; cases hl
      · rw [hl'] at hl
        injection hl with hh
        subst hh
        simpa [jsIsInteger] using hint'
    rw [hl]
    exact gameActivityText_contains_level p.num l hlden hl1
  · intro h
    exact gameActivityText_contains_question p.num req.level h

/-- C2 (witness): the scenario — a user with no prior record awarding
`{points:50, level:3}` ends with total 50 and one audit record whose
text contains "level 3". -/
theorem awardGamePoints_valid_award_witness :
    readPoints (awardGamePoints 7 (some "u1") gameReq50 emptyStore).store
        = readPoints emptyStore + (50 : ℚ).num ∧
    (awardGamePoints 7 (some "u1") gameReq50 emptyStore).store.activities =
      emptyStore.activities ++
        [{ text := gameActivityText (50 : ℚ).num (some 3), time := 7,
           totalScore := totalScoreOrNull none }] ∧
    strContains (gameActivityText (50 : ℚ).num (some 3))
      ("level " ++ toString (3 : ℚ).num) := by
  obtain ⟨e1, e2, e3, e4⟩ :=
    awardGamePoints_valid_award 7 "u1" gameReq50 emptyStore 50 rfl (by decide)
      rfl (by decide) (by norm_num) (by norm_num)
      (Or.inr ⟨3, rfl, by decide, by norm_num, by norm_num⟩)
  exact ⟨e1, e2, e3 3 rfl (by norm_num)⟩

/-- C2 (counterexample): level 0 is inside the claim's allowed range,
yet the single audit record written reads "level ?" — it does not
contain the level (neither the substring "level 0" nor even the digit
"0" occurs in its text). -/
theorem awardGamePoints_level_zero_audit :
    (awardGamePoints 7 (some "u1")
        { userId := some "u1", points := some 53, level := some 0,
          totalScore := none } emptyStore).store.activities =
      [{ text := "Game: +53 pts (level ?)", time := 7, totalScore := none }] ∧
    readPoints (awardGamePoints 7 (some "u1")
        { userId := some "u1", points := some 53, level := some 0,
          totalScore := none } emptyStore).store = 53 ∧
    ¬ strContains "Game: +53 pts (level ?)" "level 0" ∧
    ¬ strContains "Game: +53 pts (level ?)" "0" :=
  ⟨rfl, rfl, by decide, by decide⟩

/-- Reduction of `awardGamePoints` when the level guard fires (valid
owner and points): 400 "invalid level", untouched store, no
transaction. -/
theorem awardGamePoints_invalid_level (t : Nat) (uid : String)
    (req : GameReq) (st : Store) (p : ℚ)
    (huid : req.userId = some uid) (hne : uid ≠ "")
    (hp : req.points = some p) (hint : jsIsInteger p = true)
    (hp1 : 0 < p) (hp2 : p ≤ 1000)
    (hrej : levelRejected req.level = true) :
    awardGamePoints t (some uid) req st =
      { store := st,
        responses := [{ status := 400, ok := false,
                        error := some "invalid level",
                        added := none, points := none }],
        txCount := 0 } := by
  unfold awardGamePoints
  simp only [hp, if_neg (ownership_guard_passes uid req.userId huid hne),
    if_neg (points_guard_passes p hint hp1), if_neg (not_lt.mpr hp2),
    if_pos hrej]

/-- C4 (amended): with a verified owner and valid points, a provided
level is rejected — 400 "invalid level", no mutation, no transaction —
exactly when it is nonzero and either negative or greater than 500;
every other provided level, including non-integers in `(0, 500]`, is
accepted. -/
theorem awardGamePoints_level_guard (t : Nat) (uid : String)
    (req : GameReq) (st : Store) (p l : ℚ)
    (huid : req.userId = some uid) (hne : uid ≠ "")
    (hp : req.points = some p) (hint : jsIsInteger p = true)
    (hp1 : 0 < p) (hp2 : p ≤ 1000)
    (hl : req.level = some l) :
    ((awardGamePoints t (some uid) req st).responses =
        [{ status := 400, ok := false, error := some "invalid level",
           added := none, points := none }] ∧
      (awardGamePoints t (some uid) req st).store = st ∧
      (awardGamePoints t (some uid) req st).txCount = 0)
    ↔ (l ≠ 0 ∧ (l < 0 ∨ 500 < l)) := by
  by_cases hrej : levelRejected req.level = true
  · have hRHS : l ≠ 0 ∧ (l < 0 ∨ 500 < l) := by
      rw [hl] at hrej
      simpa [levelRejected, decide_eq_true_eq] using hrej
    rw [awardGamePoints_invalid_level t uid req st p huid hne hp hint hp1
      hp2 hrej]
    exact iff_of_true ⟨rfl, rfl, rfl⟩ hRHS
  · obtain ⟨_, _, _, _, _, e6⟩ :=
      awardGamePoints_success t uid req st p huid hne hp hint hp1 hp2 hrej
    have hRHS : ¬ (l ≠ 0 ∧ (l < 0 ∨ 500 < l)) := by
      rw [hl] at hrej
      simpa [levelRejected, decide_eq_true_eq] using hrej
    refine iff_of_false ?_ hRHS
    rintro ⟨-, -, h0⟩
    rw [e6] at h0
    cases h0

/-- C4 (witness): the amended guard at concrete inputs — level 501 is
rejected with "invalid level" and no mutation. -/
theorem awardGamePoints_level_guard_witness :
    ((awardGamePoints 7 (some "u1")
        { userId := some "u1", points := some 10, level := some 501,
          totalScore := none } adDayState).responses =
        [{ status := 400, ok := false, error := some "invalid level",
           added := none, points := none }] ∧
      (awardGamePoints 7 (some "u1")
        { userId := some "u1", points := some 10, level := some 501,
          totalScore := none } adDayState).store = adDayState ∧
      (awardGamePoints 7 (some "u1")
        { userId := some "u1", points := some 10, level := some 501,
          totalScore := none } adDayState).txCount = 0)
    ↔ ((501 : ℚ) ≠ 0 ∧ ((501 : ℚ) < 0 ∨ 500 < (501 : ℚ))) :=
  awardGamePoints_level_guard 7 "u1"
    { userId := some "u1", points := some 10, level := some 501,
      totalScore := none } adDayState 10 501 rfl (by decide) rfl (by decide)
    (by norm_num) (by norm_num) rfl

/-- C4 (counterexample): the non-integer level 7/2 is accepted — the
call mutates the store and responds 200, not 400 "invalid level". -/
theorem awardGamePoints_fractional_level_accepted :
    (awardGamePoints 7 (some "u1")
        { userId := some "u1", points := some 10, level := some (mkRat 7 2),
          totalScore := none } emptyStore).responses =
      [{ status := 200, ok := true, error := none, added := some 10,
         points := some 10 }] ∧
    (awardGamePoints 7 (some "u1")
        { userId := some "u1", points := some 10, level := some (mkRat 7 2),
          totalScore := none } emptyStore).store ≠ emptyStore :=
  ⟨rfl, by decide⟩

/-- Effect dichotomy for `applyAdReward`: every run either leaves the
store untouched, or performs exactly the +100 increment, `lastAdShown`
update and single activity append of the award transaction. -/
theorem applyAdReward_effect (now : Date) (t : Nat) (auth : Option String)
    (req : AdReq) (st : Store) :
    (applyAdReward now t auth req st).store = st ∨
    (readPoints (applyAdReward now t auth req st).store
        = readPoints st + 100 ∧
      readLastAdShown (applyAdReward now t auth req st).store
        = some (dayKey now) ∧
      readOthers (applyAdReward now t auth req st).store = readOthers st ∧
      (applyAdReward now t auth req st).store.activities =
        st.activities ++
          [{ text := "Watched daily ad +100 pts (server)", time := t,
             totalScore := none }]) := by
  rcases auth with _ | uid
  · exact Or.inl rfl
  by_cases hguard : ¬ strTruthy req.userId = true ∨ req.userId ≠ some uid
  · left
    unfold applyAdReward
    simp only [if_pos hguard]
  by_cases hday : readLastAdShown st = some (dayKey now)
  · left
    unfold applyAdReward
    simp only [if_neg hguard, if_pos hday]
  · right
    rcases st with ⟨u, acts⟩
    unfold applyAdReward
    simp only [if_neg hguard, if_neg hday]
    rcases u with _ | u
    · simp [readPoints, readLastAdShown, readOthers]
    · simp [readPoints, readLastAdShown, readOthers]

/-- Effect dichotomy for `awardGamePoints`: every run either leaves the
store untouched, or increments the total by a validated integer
`points` and appends exactly one activity, preserving `lastAdShown`
and all unrelated fields. -/
theorem awardGamePoints_effect (t : Nat) (auth : Option String)
    (req : GameReq) (st : Store) :
    (awardGamePoints t auth req st).store = st ∨
    ∃ p : ℚ, req.points = some p ∧ jsIsInteger p = true ∧ 0 < p ∧ p ≤ 1000 ∧
      readPoints (awardGamePoints t auth req st).store
        = readPoints st + p.num ∧
      readLastAdShown (awardGamePoints t auth req st).store
        = readLastAdShown st ∧
      readOthers (awardGamePoints t auth req st).store = readOthers st ∧
      (awardGamePoints t auth req st).store.activities =
        st.activities ++
          [{ text := gameActivityText p.num req.level, time := t,
             totalScore := totalScoreOrNull req.totalScore }] := by
  rcases auth with _ | uid
  · exact Or.inl rfl
  by_cases hguard : ¬ strTruthy req.userId = true ∨ req.userId ≠ some uid
  · left
    unfold awardGamePoints
    simp only [if_pos hguard]
  rcases hp : req.points with _ | p
  · left
    unfold awardGamePoints
    simp only [hp, if_pos hguard]
    simp only [if_neg hguard]
  by_cases h1 : ¬ jsIsInteger p = true ∨ p ≤ 0
  · left
    unfold awardGamePoints
    simp only [hp, if_neg hguard, if_pos h1]
  by_cases h2 : 1000 < p
  · left
    unfold awardGamePoints
    simp only [hp, if_neg hguard, if_neg h1, if_pos h2]
  by_cases h3 : levelRejected req.level = true
  · left
    unfold awardGamePoints
    simp only [hp, if_neg hguard, if_neg h1, if_neg h2, if_pos h3]
  · right
    push_neg at hguard
    obtain ⟨hstr, huid⟩ := hguard
    have hne : uid ≠ "" := by
      rw [huid] at hstr
      simpa [strTruthy] using hstr
    have hint : jsIsInteger p = true := by
      by_contra hc
      exact h1 (Or.inl hc)
    have hpos : 0 < p := by
      by_contra hc
      exact h1 (Or.inr (not_lt.mp hc))
    obtain ⟨e1, e2, e3, e4, e5, e6⟩ :=
      awardGamePoints_success t uid req st p huid hne hp hint hpos
        (not_lt.mp h2) h3
    exact ⟨p, rfl, hint, hpos, not_lt.mp h2, e1, e2, e3, e4⟩

/-- C6: every execution of either handler either leaves the balance and
the audit log both untouched, or commits exactly one positive balance
increment together with exactly one appended audit record carrying the
server-assigned timestamp — never one without the other, both applied
by the same atomic transaction write set. -/
theorem increment_audit_paired (st : Store) (op : Op) :
    (runOp st op).store = st ∨
    ∃ n : Int, 0 < n ∧ ∃ a : Activity, a.time = opServerTime op ∧
      readPoints (runOp st op).store = readPoints st + n ∧
      (runOp st op).store.activities = st.activities ++ [a] := by
  rcases op with ⟨now, t, auth, req⟩ | ⟨t, auth, req⟩
  · rcases applyAdReward_effect now t auth req st with h | ⟨h1, h2, h3, h4⟩
    · exact Or.inl h
    · exact Or.inr ⟨100, by norm_num,
        { text := "Watched daily ad +100 pts (server)", time := t,
          totalScore := none }, rfl, h1, h4⟩
  · rcases awardGamePoints_effect t auth req st with
      h | ⟨p, hp, hint, hpos, hle, h1, h2, h3, h4⟩
    · exact Or.inl h
    · exact Or.inr ⟨p.num, Rat.num_pos.mpr hpos,
        { text := gameActivityText p.num req.level, time := t,
          totalScore := totalScoreOrNull req.totalScore }, rfl, h1, h4⟩

/-- C8: from any state whose stored total is non-negative, each request
either leaves the total unchanged or increases it by a positive integer
amount — exactly 100 for `applyAdReward` and an integer in `[1,1000]`
for `awardGamePoints` — so the total never decreases and never becomes
negative. -/
theorem points_total_monotone (st : Store) (op : Op)
    (h : 0 ≤ readPoints st) :
    readPoints st ≤ readPoints (runOp st op).store ∧
    0 ≤ readPoints (runOp st op).store ∧
    (readPoints (runOp st op).store = readPoints st ∨
      ∃ n : Int, 1 ≤ n ∧ n ≤ 1000 ∧
        readPoints (runOp st op).store = readPoints st + n ∧
        (∀ now t a r, op = Op.ad now t a r → n = 100)) := by
  rcases op with ⟨now, t, auth, req⟩ | ⟨t, auth, req⟩
  · rcases applyAdReward_effect now t auth req st with heq | ⟨h1, h2, h3, h4⟩
    · simp only [runOp]
      rw [heq]
      exact ⟨le_refl _, h, Or.inl rfl⟩
    · have h1' : readPoints (runOp st (Op.ad now t auth req)).store
          = readPoints st + 100 := h1
      refine ⟨by linarith, by linarith, Or.inr ⟨100, by norm_num, by norm_num,
        h1', ?_⟩⟩
      intro _ _ _ _ _
      rfl
  · rcases awardGamePoints_effect t auth req st with
      heq | ⟨p, hp, hint, hpos, hle, h1, h2, h3, h4⟩
    · simp only [runOp]
      rw [heq]
      exact ⟨le_refl _, h, Or.inl rfl⟩
    · have h1' : readPoints (runOp st (Op.game t auth req)).store
          = readPoints st + p.num := h1
      have hnum1 : 1 ≤ p.num := by
        have := Rat.num_pos.mpr hpos
        omega
      have hden : p.den = 1 := by simpa [jsIsInteger] using hint
      have hnum2 : p.num ≤ 1000 := by
        have hq : (p.num : ℚ) = p := Rat.coe_int_num_of_den_eq_one hden
        have : (p.num : ℚ) ≤ 1000 := by rw [hq]; exact hle
        exact_mod_cast this
      refine ⟨by linarith, by linarith,
        Or.inr ⟨p.num, hnum1, hnum2, h1', ?_⟩⟩
      intro _ _ _ _ hab
      cases hab

/-- C8 (witness): the statement at a concrete game award from the empty
store. -/
theorem points_total_monotone_witness :
    0 ≤ readPoints emptyStore ∧
    (readPoints emptyStore ≤
        readPoints (runOp emptyStore (Op.game 7 (some "u1") gameReq50)).store ∧
      0 ≤ readPoints (runOp emptyStore (Op.game 7 (some "u1") gameReq50)).store ∧
      (readPoints (runOp emptyStore (Op.game 7 (some "u1") gameReq50)).store
          = readPoints emptyStore ∨
        ∃ n : Int, 1 ≤ n ∧ n ≤ 1000 ∧
          readPoints (runOp emptyStore (Op.game 7 (some "u1") gameReq50)).store
            = readPoints emptyStore + n ∧
          (∀ now t a r, Op.game 7 (some "u1") gameReq50 = Op.ad now t a r →
            n = 100))) :=
  ⟨by decide, points_total_monotone emptyStore (Op.game 7 (some "u1") gameReq50)
    (by decide)⟩

/-- C9: every run of either handler preserves all balance-record fields
other than the point total and (for `applyAdReward`) the day key: the
unrelated fields survive every award because the writes merge, and
`awardGamePoints` also preserves `lastAdShown`. -/
theorem award_frame_preserved (st : Store) (op : Op) :
    readOthers (runOp st op).store = readOthers st ∧
    (∀ t a r, op = Op.game t a r →
      readLastAdShown (runOp st op).store = readLastAdShown st) := by
  rcases op with ⟨now, t, auth, req⟩ | ⟨t, auth, req⟩
  · constructor
    · rcases applyAdReward_effect now t auth req st with heq | ⟨h1, h2, h3, h4⟩
      · simp only [runOp]
        rw [heq]
      · exact h3
    · rintro t' a r hab
      cases hab
  · constructor
    · rcases awardGamePoints_effect t auth req st with
        heq | ⟨p, hp, hint, hpos, hle, h1, h2, h3, h4⟩
      · simp only [runOp]
        rw [heq]
      · exact h3
    · rintro t' a r hab
      rcases awardGamePoints_effect t auth req st with
        heq | ⟨p, hp, hint, hpos, hle, h1, h2, h3, h4⟩
      · simp only [runOp]
        rw [heq]
      · exact h2

/-- C9 (witness): the statement at a concrete game award against a
store holding unrelated fields and a day key. -/
theorem award_frame_preserved_witness :
    readOthers (runOp adDayState (Op.game 11 (some "u1") gameReq50)).store
        = readOthers adDayState ∧
    readLastAdShown (runOp adDayState (Op.game 11 (some "u1") gameReq50)).store
        = readLastAdShown adDayState :=
  ⟨(award_frame_preserved adDayState (Op.game 11 (some "u1") gameReq50)).1,
   (award_frame_preserved adDayState (Op.game 11 (some "u1") gameReq50)).2
     11 (some "u1") gameReq50 rfl⟩
